import Mathlib

/-!
Verification development for the KMF remote input-sharing service.

This file gives a shallow embedding, in Lean 4, of the parts of the KMF
source that the specification's checkable claims are about:

* the wire protocol codec (`shared/protocol/src/packet.rs`),
* the compact-mode action encoding
  (`shared/middleware/src/command.rs`),
* the master driver loop (`gui/src-tauri/src/driver_loop.rs` and the
  loop body in `gui/src-tauri/src/master_service.rs`),
* the master per-client handler bookkeeping
  (`gui/src-tauri/src/master_service.rs`),
* the slave packet handler (`gui/src-tauri/src/slave_service.rs`).

Modelling conventions:

* Rust byte buffers (`Vec<u8>`, `&[u8]`) are `List Nat` whose elements
  are byte values; arithmetic that the source performs on machine
  integers is made explicit with `% 2^32` where the source casts
  (`bytes.len() as u32`).
* Rust `String` values are represented by their UTF-8 byte lists.  A
  Rust `String` is always valid UTF-8, so theorems about strings carry
  a `utf8Valid` hypothesis, discharged by `decide` at concrete inputs.
* Rust `i32` cursor coordinates are modelled as `Int`; the deltas and
  coordinates handled by the driver loop are far from the `i32`
  boundaries in all claims considered here, so two's-complement
  wrap-around is not modelled.
* The serde payload codecs (`serde_json`, `rmp_serde`) are third-party
  crates, not source of this repository; they appear as explicit
  function parameters (`encC`/`decC` for `ServerConfig` payloads,
  `encV`/`decV` for `serde_json::Value` payloads).  Framing theorems
  hold for arbitrary such functions; witnesses instantiate trivial
  ones.
-/

namespace KMF

/-! ## Bytes: big-endian 32-bit length fields (`u32::to_be_bytes` / `from_be_bytes`) -/

/-- Big-endian byte encoding of `bytes.len() as u32`: the cast truncates
to 32 bits, hence the `% 2^32`.  Mirrors `(len as u32).to_be_bytes()` in
`Packet::insert_into_buf`. -/
def u32be (n : Nat) : List Nat :=
  let m := n % 4294967296
  [m / 16777216, m / 65536 % 256, m / 256 % 256, m % 256]

/-- Big-endian 32-bit read, mirroring `u32::from_be_bytes` on a 4-byte
slice (`Packet::read_payload`). -/
def beToNat (l : List Nat) : Nat :=
  l.foldl (fun acc b => acc * 256 + b) 0

theorem u32be_length (n : Nat) : (u32be n).length = 4 := rfl

theorem beToNat_u32be (n : Nat) (h : n < 4294967296) : beToNat (u32be n) = n := by
  simp only [u32be, beToNat, List.foldl]
  omega

/-! ## UTF-8 validity (model of `std::str` validation used by
`String::from_utf8` and `String::from_utf8_lossy`) -/

/-- Range check for a plain UTF-8 continuation byte. -/
def utf8Cont (c : Nat) : Bool := 128 ≤ c && c < 192

/-- Admissible first continuation byte after a 3-byte leading byte
(excludes overlong encodings and surrogates, as the Rust validator
does). -/
def utf8Cont2First (b c : Nat) : Bool :=
  if b = 224 then 160 ≤ c && c < 192
  else if b = 237 then 128 ≤ c && c < 160
  else utf8Cont c

/-- Admissible first continuation byte after a 4-byte leading byte
(excludes overlong encodings and values above U+10FFFF). -/
def utf8Cont3First (b c : Nat) : Bool :=
  if b = 240 then 144 ≤ c && c < 192
  else if b = 244 then 128 ≤ c && c < 144
  else utf8Cont c

/-- Byte length of the well-formed UTF-8 scalar sequence starting at the
head of the list, or `none` if the head does not start one. -/
def utf8CharLen : List Nat → Option Nat
  | [] => none
  | b :: rest =>
    if b < 128 then some 1
    else if b < 194 then none
    else if b < 224 then
      match rest with
      | c :: _ => if utf8Cont c then some 2 else none
      | [] => none
    else if b < 240 then
      match rest with
      | c :: d :: _ => if utf8Cont2First b c && utf8Cont d then some 3 else none
      | _ => none
    else if b < 245 then
      match rest with
      | c :: d :: e :: _ =>
        if utf8Cont3First b c && utf8Cont d && utf8Cont e then some 4 else none
      | _ => none
    else none

/-- Fuel-indexed UTF-8 validation; the fuel is an upper bound on the
number of decoded scalars, and `l.length` always suffices. -/
def utf8ValidAux : Nat → List Nat → Bool
  | _, [] => true
  | 0, _ :: _ => false
  | fuel + 1, l =>
    match utf8CharLen l with
    | none => false
    | some n => utf8ValidAux fuel (l.drop n)

/-- Whether a byte list is valid UTF-8 (model of the check behind
`String::from_utf8`). -/
def utf8Valid (l : List Nat) : Bool := utf8ValidAux l.length l

/-- Model of `String::from_utf8`: returns the same bytes on success,
`none` on invalid UTF-8. -/
def stringFromUtf8 (l : List Nat) : Option (List Nat) :=
  if utf8Valid l then some l else none

/-- Length of the invalid maximal subpart replaced by one U+FFFD. -/
def utf8SubpartLen : List Nat → Nat
  | [] => 1
  | b :: rest =>
    if 224 ≤ b ∧ b < 240 then
      match rest with
      | c :: d :: _ =>
        if utf8Cont2First b c then (if utf8Cont d then 3 else 2) else 1
      | [c] => if utf8Cont2First b c then 2 else 1
      | [] => 1
    else if 240 ≤ b ∧ b < 245 then
      match rest with
      | c :: d :: e :: _ =>
        if utf8Cont3First b c then
          (if utf8Cont d then (if utf8Cont e then 4 else 3) else 2)
        else 1
      | [c, d] => if utf8Cont3First b c then (if utf8Cont d then 3 else 2) else 1
      | [c] => if utf8Cont3First b c then 2 else 1
      | [] => 1
    else 1

/-- Fuel-indexed replacement loop of the lossy decoder (only reached on
invalid input). -/
def utf8LossyAux : Nat → List Nat → List Nat
  | _, [] => []
  | 0, _ :: _ => []
  | fuel + 1, l =>
    match utf8CharLen l with
    | some n => l.take n ++ utf8LossyAux fuel (l.drop n)
    | none => [239, 191, 189] ++ utf8LossyAux fuel (l.drop (utf8SubpartLen l))

/-- Model of `String::from_utf8_lossy(..).to_string()`: the identity on
valid UTF-8 (Rust borrows the input unchanged in that case), otherwise
each invalid maximal subpart is replaced by U+FFFD. -/
def utf8Lossy (l : List Nat) : List Nat :=
  if utf8Valid l then l else utf8LossyAux l.length l

/-! ## Protocol data model (`shared/protocol/src/packet.rs`,
`config.rs`, `error.rs`) -/

/-- Error codes used in protocol error packets (`ErrorCode`). -/
inductive ErrorCode
  | unknown
  | invalidPacket
  | notFound
  | internal
deriving DecidableEq, Repr

/-- Discriminant written on the wire (`code as u8`). -/
def ErrorCode.toByte : ErrorCode → Nat
  | .unknown => 0
  | .invalidPacket => 1
  | .notFound => 2
  | .internal => 3

/-- Model of `ErrorCode::try_from(u8)` composed with
`.unwrap_or(ErrorCode::Unknown)`: the source's `TryFrom` already maps
every unlisted byte to `Unknown`, so the total function below is exact. -/
def ErrorCode.fromByte : Nat → ErrorCode
  | 0 => .unknown
  | 1 => .invalidPacket
  | 2 => .notFound
  | 3 => .internal
  | _ => .unknown

/-- Protocol type identifiers (`PacketType`), values 0..9. -/
inductive PacketType
  | ok
  | err
  | serverHello
  | action
  | clientQuit
  | dropSend
  | dropReq
  | data
  | edgeL
  | edgeR
deriving DecidableEq, Repr

/-- Model of `PacketType::try_from(u8)`. -/
def PacketType.fromByte : Nat → Option PacketType
  | 0 => some .ok
  | 1 => some .err
  | 2 => some .serverHello
  | 3 => some .action
  | 4 => some .clientQuit
  | 5 => some .dropSend
  | 6 => some .dropReq
  | 7 => some .data
  | 8 => some .edgeL
  | 9 => some .edgeR
  | _ => none

/-- Client configuration sent during the ServerHello handshake
(`ServerConfig`); the hostname is a UTF-8 byte list. -/
structure ServerConfig where
  version : Nat
  screen_width : Nat
  screen_height : Nat
  hostname : List Nat
deriving DecidableEq, Repr

/-- Model of `serde_json::Value`.  Strings are UTF-8 byte lists; numbers
are restricted to integers (no claim involves floating payloads). -/
inductive Value
  | vNull
  | vBool (b : Bool)
  | vNum (n : Int)
  | vStr (s : List Nat)
  | vArr (elems : List Value)
  | vObj (fields : List (List Nat × Value))

/-- Protocol packets (`Packet`); strings are UTF-8 byte lists. -/
inductive Packet
  | ok
  | err (code : ErrorCode) (message : List Nat)
  | serverHello (config : ServerConfig)
  | action (payload : Value)
  | clientQuit
  | dropSend (filename : List Nat)
  | dropReq (filename : List Nat)
  | data (bytes : List Nat)
  | edgeL
  | edgeR

/-- Model of `Packet::packet_type` followed by `as u8` (the byte pushed
first by `serialize_with_mode`). -/
def Packet.typeByte : Packet → Nat
  | .ok => 0
  | .err _ _ => 1
  | .serverHello _ => 2
  | .action _ => 3
  | .clientQuit => 4
  | .dropSend _ => 5
  | .dropReq _ => 6
  | .data _ => 7
  | .edgeL => 8
  | .edgeR => 9

/-- Serialization mode for packet payloads (`SerializationMode`). -/
inductive SerializationMode
  | json
  | binary
deriving DecidableEq, Repr

/-- Model of `Packet::insert_into_buf`: big-endian `u32` length prefix
followed by the bytes.  The `as u32` cast truncates, which `u32be`
makes explicit. -/
def insertIntoBuf (bytes : List Nat) : List Nat :=
  u32be bytes.length ++ bytes

/-- Model of `Packet::serialize_with_mode`.  `encC` stands for
`serialize_into(mode, config)` and `encV` for
`serialize_into(mode, action)` — the serde encoders selected by the
ambient mode, which are third-party code and therefore parameters
here.  The branch structure is the source's: in Binary mode a string
`Action` payload is written as its raw bytes, unwrapped. -/
def serializeWithMode (encC : ServerConfig → List Nat) (encV : Value → List Nat)
    (p : Packet) (mode : SerializationMode) : List Nat :=
  p.typeByte ::
    match p with
    | .ok | .clientQuit | .edgeL | .edgeR => []
    | .err code message => code.toByte :: insertIntoBuf message
    | .serverHello config => insertIntoBuf (encC config)
    | .action payload =>
      match mode with
      | .json => insertIntoBuf (encV payload)
      | .binary =>
        match payload with
        | .vStr encoded => insertIntoBuf encoded
        | _ => insertIntoBuf (encV payload)
    | .dropSend filename => insertIntoBuf filename
    | .dropReq filename => insertIntoBuf filename
    | .data bytes => insertIntoBuf bytes

/-- Model of `Packet::read_payload`: bounds-checked length-prefixed
read at `offset`.  `LENGTH_PREFIX_SIZE = 4`. -/
def readPayload (dat : List Nat) (offset : Nat) (packetName : String) :
    Except String (List Nat) :=
  if dat.length < offset + 4 then
    .error ("Invalid " ++ packetName ++ " protocol")
  else
    let len := beToNat ((dat.drop offset).take 4)
    if dat.length < offset + 4 + len then
      .error ("Truncated " ++ packetName ++ " protocol")
    else
      .ok ((dat.drop (offset + 4)).take len)

/-- Model of `Packet::deserialize_error`.  The length gate is the
source's literal `MIN_ERROR_PACKET_SIZE + PACKET_TYPE_SIZE = 7`; the
code byte sits at offset 1, the message payload at offset 2. -/
def deserializeError (dat : List Nat) : Except String Packet :=
  if dat.length < 7 then
    .error "Invalid error protocol"
  else
    match readPayload dat 2 "Error" with
    | .error e => .error e
    | .ok payload =>
      .ok (.err (ErrorCode.fromByte (dat.getD 1 0)) (utf8Lossy payload))

/-- Model of `Packet::deserialize_with_mode`.  `decC` and `decV` stand
for `deserialize_from(mode, ..)` at the respective payload types; a
`none` result is a serde decoding failure.  In Binary mode the Action
payload is rebuilt as `Value::String(String::from_utf8(payload)?)`,
exactly as in the source. -/
def deserializeWithMode (decC : List Nat → Option ServerConfig)
    (decV : List Nat → Option Value) (dat : List Nat)
    (mode : SerializationMode) : Except String Packet :=
  match dat with
  | [] => .error "Empty protocol data"
  | b :: _ =>
    match PacketType.fromByte b with
    | none => .error "Unknown protocol type"
    | some pt =>
      match pt with
      | .ok => .ok .ok
      | .clientQuit => .ok .clientQuit
      | .edgeL => .ok .edgeL
      | .edgeR => .ok .edgeR
      | .err => deserializeError dat
      | .serverHello =>
        match readPayload dat 1 "ServerHello" with
        | .error e => .error e
        | .ok payload =>
          match decC payload with
          | some config => .ok (.serverHello config)
          | none => .error "Deserialization error"
      | .action =>
        match readPayload dat 1 "Action" with
        | .error e => .error e
        | .ok payload =>
          match mode with
          | .json =>
            match decV payload with
            | some v => .ok (.action v)
            | none => .error "Deserialization error"
          | .binary =>
            match stringFromUtf8 payload with
            | some s => .ok (.action (.vStr s))
            | none => .error "Invalid Action payload encoding"
      | .dropSend =>
        match readPayload dat 1 "Drop" with
        | .error e => .error e
        | .ok payload => .ok (.dropSend (utf8Lossy payload))
      | .dropReq =>
        match readPayload dat 1 "Drop" with
        | .error e => .error e
        | .ok payload => .ok (.dropReq (utf8Lossy payload))
      | .data =>
        match readPayload dat 1 "Data" with
        | .error e => .error e
        | .ok payload => .ok (.data payload)

/-! ## Compact-mode action encoding
(`shared/middleware/src/command.rs::serialize_action`) -/

/-- ASCII code of the standard base64 alphabet character for a 6-bit
group (RFC 4648, the `general_purpose::STANDARD` engine's alphabet). -/
def b64char (n : Nat) : Nat :=
  if n < 26 then 65 + n
  else if n < 52 then 97 + (n - 26)
  else if n < 62 then 48 + (n - 52)
  else if n = 62 then 43
  else 47

/-- Standard padded base64 encoding of a byte list, returned as the
ASCII bytes of the encoded text (model of
`general_purpose::STANDARD.encode`). -/
def base64Encode : List Nat → List Nat
  | [] => []
  | [a] => [b64char (a / 4), b64char (a % 4 * 16), 61, 61]
  | [a, b] => [b64char (a / 4), b64char (a % 4 * 16 + b / 16), b64char (b % 16 * 4), 61]
  | a :: b :: c :: rest =>
    b64char (a / 4) :: b64char (a % 4 * 16 + b / 16) ::
      b64char (b % 16 * 4 + c / 64) :: b64char (c % 64) :: base64Encode rest

theorem base64Encode_length (l : List Nat) :
    (base64Encode l).length = 4 * ((l.length + 2) / 3) := by
  induction l using base64Encode.induct with
  | case1 => rfl
  | case2 a => simp [base64Encode]
  | case3 a b => simp [base64Encode]
  | case4 a b c rest ih => simp [base64Encode, ih]; omega

/-- A generic action/event (`GenericAction`); the button and key fields
are Rust `String`s, modelled as UTF-8 byte lists. -/
inductive GenericAction
  | mouseMove (x y wheel : Int)
  | mouseClick (button : List Nat) (pressed : Bool)
  | keyPress (key : List Nat) (pressed : Bool)
deriving DecidableEq, Repr

/-- Model of `serialize_action` (`command.rs`).  `encAJ` stands for the
third-party `serde_json::to_value`, `binEnc` for the third-party
`rmp_serde::to_vec` (`serialize_bin`); both are parameters.  In Binary
mode the source MessagePack-encodes the action and then base64-encodes
the bytes into a JSON string. -/
def serializeAction (encAJ : GenericAction → Value) (binEnc : GenericAction → List Nat)
    (mode : SerializationMode) (action : GenericAction) : Value :=
  match mode with
  | .json => encAJ action
  | .binary => .vStr (base64Encode (binEnc action))

/-- The full wire frame for an action in Binary (Compact) mode:
`serialize_action` followed by `Packet::serialize_with_mode`. -/
def compactActionFrame (encC : ServerConfig → List Nat) (encV : Value → List Nat)
    (encAJ : GenericAction → Value) (binEnc : GenericAction → List Nat)
    (action : GenericAction) : List Nat :=
  serializeWithMode encC encV
    (.action (serializeAction encAJ binEnc .binary action)) .binary

/-! ## Driver loop (`gui/src-tauri/src/driver_loop.rs`) -/

/-- Mouse buttons (`kmf_driver::event::MouseButton`). -/
inductive MouseButton
  | left
  | right
  | middle
deriving DecidableEq, Repr

/-- Relative mouse motion (`MouseMove`). -/
structure MouseMove where
  x : Int
  y : Int
  wheel : Int
deriving DecidableEq, Repr

/-- Mouse button transition (`MouseClick`). -/
structure MouseClick where
  button : MouseButton
  pressed : Bool
deriving DecidableEq, Repr

/-- Keyboard key transition (`KeyboardPress`); the key is a hardware
keycode (`u16`). -/
structure KeyboardPress where
  key : Nat
  pressed : Bool
deriving DecidableEq, Repr

/-- Raw device events consumed by the driver loop (`DriverEvent`). -/
inductive DriverEvent
  | mouseMove (mm : MouseMove)
  | mouseClick (mc : MouseClick)
  | keyboardPress (kp : KeyboardPress)
deriving DecidableEq, Repr

/-- Externally observable actions of the driver loop: device grabs and
ungrabs (`reader.grab_inputs` / `reader.ungrab_inputs`, modelled on
their success path — a failure is only logged and the flag is left
as-is), local replay (`writer.simulate_event`), and publications on the
broadcast hub (`send_network_action`, which publishes
`ServerMessage::Action` with the encoded action). -/
inductive MasterEffect
  | grabbed
  | ungrabbed
  | simulated (e : DriverEvent)
  | published (a : GenericAction)
deriving DecidableEq, Repr

/-- Observable master status record (`MasterStatus`). -/
structure MasterStatus where
  running : Bool
  calibration_mode : Bool
  cursor_x : Int
  cursor_y : Int
  master_width : Int
  master_height : Int
  remote_mode : Bool
deriving DecidableEq, Repr

/-- Default `MasterStatus` after `reset()` at master start. -/
def MasterStatus.resetState : MasterStatus :=
  { running := true, calibration_mode := true, cursor_x := 0, cursor_y := 0
    master_width := 1920, master_height := 1080, remote_mode := false }

/-- Driver loop state (`DriverLoopContext`) together with the global
running flag (`running_flag` atomic), the mirrored status record, and
the trace of emitted effects. -/
structure DriverLoopContext where
  cursor_x : Int
  cursor_y : Int
  remote_mode : Bool
  calibration_mode : Bool
  master_width : Int
  master_height : Int
  inputs_grabbed : Bool
  pressed_keys : List Nat
  runFlag : Bool
  status : MasterStatus
  trace : List MasterEffect
deriving DecidableEq, Repr

/-- Insertion into the pressed-key `HashSet` (no duplicates). -/
def keysInsert (l : List Nat) (k : Nat) : List Nat :=
  if k ∈ l then l else k :: l

/-- Model of `DriverLoopContext::update_status`. -/
def updateStatus (c : DriverLoopContext) : DriverLoopContext :=
  { c with status :=
    { running := true, calibration_mode := c.calibration_mode
      cursor_x := c.cursor_x, cursor_y := c.cursor_y
      master_width := c.master_width, master_height := c.master_height
      remote_mode := c.remote_mode } }

/-- Model of `DriverLoopContext::switch_mode` (grab and ungrab shown on
their success path). -/
def switchMode (c : DriverLoopContext) (newRemote : Bool) : DriverLoopContext :=
  let c := { c with remote_mode := newRemote }
  if newRemote then
    if c.inputs_grabbed then c
    else { c with inputs_grabbed := true, trace := c.trace ++ [.grabbed] }
  else
    if c.inputs_grabbed then
      { c with inputs_grabbed := false, trace := c.trace ++ [.ungrabbed] }
    else c

/-- Model of `DriverLoopContext::send_network_action`: the action is
encoded by `send_action` and published on the broadcast hub; the trace
records the published action. -/
def sendNetworkAction (c : DriverLoopContext) (a : GenericAction) : DriverLoopContext :=
  { c with trace := c.trace ++ [.published a] }

/-- Model of `i32::clamp` (the source never reaches the `min > max`
panic: it always clamps with `master_width ≥ 1`, `master_height ≥ 1`). -/
def intClamp (v lo hi : Int) : Int :=
  if v < lo then lo else if v > hi then hi else v

/-- Model of `DriverLoopContext::handle_mouse_move`. -/
def handleMouseMove (c : DriverLoopContext) (mm : MouseMove) : DriverLoopContext :=
  if c.calibration_mode then
    updateStatus { c with
      cursor_x := max (c.cursor_x + mm.x) 0
      cursor_y := max (c.cursor_y + mm.y) 0 }
  else
    let totalWidth := c.master_width * 2
    let c := { c with
      cursor_x := intClamp (c.cursor_x + mm.x) 0 (totalWidth - 1)
      cursor_y := intClamp (c.cursor_y + mm.y) 0 (c.master_height - 1) }
    let newRemote : Bool := c.cursor_x ≥ c.master_width
    let c := if newRemote ≠ c.remote_mode then switchMode c newRemote else c
    let c := updateStatus c
    if c.remote_mode then
      sendNetworkAction c (.mouseMove mm.x mm.y mm.wheel)
    else if c.inputs_grabbed then
      { c with trace := c.trace ++ [.simulated (.mouseMove mm)] }
    else c

/-- ASCII bytes of the button name string sent in a click action. -/
def buttonName : MouseButton → List Nat
  | .left => [108, 101, 102, 116]
  | .right => [114, 105, 103, 104, 116]
  | .middle => [109, 105, 100, 100, 108, 101]

/-- Model of `DriverLoopContext::handle_mouse_click`. -/
def handleMouseClick (c : DriverLoopContext) (mc : MouseClick) : DriverLoopContext :=
  let action : GenericAction := .mouseClick (buttonName mc.button) mc.pressed
  if c.remote_mode then sendNetworkAction c action
  else if c.inputs_grabbed then
    { c with trace := c.trace ++ [.simulated (.mouseClick mc)] }
  else c

/-- Decimal ASCII bytes of a keycode (`kp.key.to_string()`). -/
def natDecimalBytes (n : Nat) : List Nat :=
  (Nat.toDigits 10 n).map Char.toNat

/-- Model of `DriverLoopContext::handle_key_press`; keycode 46 confirms
calibration. -/
def handleKeyPress (c : DriverLoopContext) (kp : KeyboardPress) : DriverLoopContext :=
  if c.calibration_mode ∧ kp.key = 46 ∧ kp.pressed then
    updateStatus { c with
      master_width := max (c.cursor_x + 1) 1
      master_height := max (c.cursor_y + 1) 1
      calibration_mode := false
      remote_mode := false }
  else
    let action : GenericAction := .keyPress (natDecimalBytes kp.key) kp.pressed
    if c.remote_mode then sendNetworkAction c action
    else if c.inputs_grabbed then
      { c with trace := c.trace ++ [.simulated (.keyboardPress kp)] }
    else c

/-- Model of `DriverLoopContext::handle_event`.  Returns `false` iff the
loop should terminate; the failsafe (keycodes 29 + 56 held, key-down 16)
stores `false` into the running flag and returns `false` before
dispatching. -/
def handleEvent (c : DriverLoopContext) (e : DriverEvent) : Bool × DriverLoopContext :=
  match e with
  | .keyboardPress kp =>
    let c1 :=
      if kp.pressed then { c with pressed_keys := keysInsert c.pressed_keys kp.key }
      else { c with pressed_keys := c.pressed_keys.erase kp.key }
    if kp.pressed ∧ 29 ∈ c1.pressed_keys ∧ 56 ∈ c1.pressed_keys ∧ kp.key = 16 then
      (false, { c1 with runFlag := false })
    else
      (true, handleKeyPress c1 kp)
  | .mouseMove mm => (true, handleMouseMove c mm)
  | .mouseClick mc => (true, handleMouseClick c mc)

/-- One batch of events as processed by the `for` loop inside
`MasterService::spawn_driver_loop`; a `false` return from
`handle_event` breaks out of the batch. -/
def processBatch : DriverLoopContext → List DriverEvent → DriverLoopContext
  | c, [] => c
  | c, e :: es =>
    match handleEvent c e with
    | (true, c') => processBatch c' es
    | (false, c') => c'

/-- The `while running.load()` loop of `spawn_driver_loop`, applied to a
(finite) stream of event batches: the flag is checked before each
batch. -/
def driverRun : DriverLoopContext → List (List DriverEvent) → DriverLoopContext
  | c, [] => c
  | c, b :: bs => if c.runFlag then driverRun (processBatch c b) bs else c

/-- The loop epilogue of `spawn_driver_loop`: if inputs are still
grabbed they are ungrabbed, then the status is marked not running. -/
def driverExit (c : DriverLoopContext) : DriverLoopContext :=
  let c :=
    if c.inputs_grabbed then { c with trace := c.trace ++ [.ungrabbed] } else c
  { c with status := { c.status with running := false, remote_mode := false } }

/-- A sequence of mouse-move deltas pushed through `handle_event`. -/
def runMoves (c : DriverLoopContext) (ds : List MouseMove) : DriverLoopContext :=
  ds.foldl (fun c mm => (handleEvent c (.mouseMove mm)).2) c

/-- Number of Local/Remote mode changes along a mouse-move sequence
(each change is one crossing of the `x = master_width` boundary by the
saturated virtual cursor). -/
def modeSwitchCount : DriverLoopContext → List MouseMove → Nat
  | _, [] => 0
  | c, d :: ds =>
    let c' := (handleEvent c (.mouseMove d)).2
    (if c'.remote_mode = c.remote_mode then 0 else 1) + modeSwitchCount c' ds

/-- Taken from the claim's words, for comparison against the code: the
number of times the running x-sum of the deltas crosses `W`, counting
entry only (a step from a sum `< W` to a sum `≥ W`). -/
def specEntryCrossings (w : Int) : Int → List MouseMove → Nat
  | _, [] => 0
  | s, d :: ds =>
    (if s < w ∧ w ≤ s + d.x then 1 else 0) + specEntryCrossings w (s + d.x) ds

/-! ## Master per-client handler bookkeeping
(`gui/src-tauri/src/master_service.rs`) -/

/-- Master-side record of a connected client (`ConnectedClientInfo`);
the hostname copied from the hello is a UTF-8 byte list. -/
structure ConnectedClientInfo where
  id : String
  hostname : List Nat
  ip : String
  clientStatus : String
deriving DecidableEq, Repr

/-- The two master-side mappings touched by a per-client task: the
`ConnectedClientInfo` vector and the key set of the stop-notifier map
`client_stoppers : HashMap<String, oneshot::Sender<()>>` (only the keys
matter to the claims; the values are one-shot senders). -/
structure MasterNetState where
  clients : List ConnectedClientInfo
  stoppers : List String
deriving DecidableEq, Repr

/-- `HashMap::insert` on the key set (a re-inserted key stays present
once). -/
def stoppersInsert (s : List String) (a : String) : List String :=
  if a ∈ s then s else a :: s

/-- `HashMap::remove` on the key set. -/
def stoppersRemove (s : List String) (a : String) : List String :=
  s.filter (fun k => k ≠ a)

/-- Model of `guard.iter().position(|c| c.id == client_id)` followed by
`guard.remove(pos)`: removes the first record with the given id. -/
def removeClient : List ConnectedClientInfo → String → List ConnectedClientInfo
  | [], _ => []
  | c :: cs, a => if c.id = a then cs else c :: removeClient cs a

/-- The accept path of `spawn_network_loop`: before spawning the
handler, the master inserts the client's stop notifier keyed by its
address. -/
def acceptClient (st : MasterNetState) (addr : String) : MasterNetState :=
  { st with stoppers := stoppersInsert st.stoppers addr }

/-- Effect of one `spawn_client_handler` task on the two mappings, from
its start to its exit.  `hello` is the outcome of the first `receive`
on the connection (`none` = receive error).  On a `ServerHello` the
task pushes a `ConnectedClientInfo`, runs the streaming loop (which
sends packets but never touches either mapping), and on exit removes
its client record and its stop-notifier entry.  On any other first
packet, or on a receive error, the task only logs and returns. -/
def clientHandlerMaps (hello : Option Packet) (addr : String)
    (st : MasterNetState) : MasterNetState :=
  match hello with
  | some (.serverHello config) =>
    let st := { st with clients := st.clients ++
      [({ id := addr, hostname := config.hostname, ip := addr,
          clientStatus := "online" } : ConnectedClientInfo)] }
    let st := { st with clients := removeClient st.clients addr }
    { st with stoppers := stoppersRemove st.stoppers addr }
  | _ => st

/-- Accept plus complete handler task: the state of the two mappings
once the per-client task has exited. -/
def clientTaskNet (hello : Option Packet) (addr : String)
    (st : MasterNetState) : MasterNetState :=
  clientHandlerMaps hello addr (acceptClient st addr)

/-! ## Slave packet handler (`gui/src-tauri/src/slave_service.rs`) -/

/-- ASCII bytes of the literal error message sent on a failed file
receive. -/
def fileRecvFailMsg : List Nat :=
  (String.toList "File transfer failed").map Char.toNat

/-- ASCII bytes of the literal error message sent on a failed file
read. -/
def fileReadFailMsg : List Nat :=
  (String.toList "File read failed").map Char.toNat

/-- Model of the slave's `handle_packet`: the packets sent back on the
stream and whether the receive loop should quit.  The outcomes of the
external calls are parameters: `decodeRes` is
`action_to_driver_event(action)`, `simRes` is
`writer.simulate_event(event)`, `fileRecvRes` is
`file_transfer::receive_file`, and `fileReadRes` is
`file_transfer::read_file`.  In the `Action` arm a decode failure is
silently dropped and a simulation failure only logged; `Ok` is sent in
every case.  The source's trailing `_ => Ok(false)` arm covers
`ServerHello` and `Data`. -/
def slaveHandlePacket (p : Packet) (decodeRes : Except String DriverEvent)
    (simRes : Except String Unit) (fileRecvRes : Except String Unit)
    (fileReadRes : Except String (List Nat)) : List Packet × Bool :=
  match p with
  | .action _ =>
    match decodeRes with
    | .ok _ =>
      match simRes with
      | .ok _ => ([Packet.ok], false)
      | .error _ => ([Packet.ok], false)
    | .error _ => ([Packet.ok], false)
  | .dropSend _ =>
    match fileRecvRes with
    | .ok _ => ([], false)
    | .error _ => ([Packet.err .internal fileRecvFailMsg], false)
  | .dropReq _ =>
    match fileReadRes with
    | .ok d => ([Packet.data d], false)
    | .error _ => ([Packet.err .internal fileReadFailMsg], false)
  | .edgeL | .edgeR => ([Packet.ok], false)
  | .clientQuit => ([], true)
  | .ok => ([], false)
  | .err _ _ => ([], false)
  | .serverHello _ => ([], false)
  | .data _ => ([], false)

/-- Whether a packet is an `Err` packet. -/
def Packet.isErr : Packet → Bool
  | .err _ _ => true
  | _ => false

/-! ## Concrete codec instances used by witnesses and counterexamples.
The serde codecs are third-party code; the framing theorems above and
below hold for arbitrary codec functions, and these trivial instances
serve only to close the universally quantified statements at concrete
inputs. -/

/-- Trivial concrete `ServerConfig` encoder for witnesses. -/
def encC0 : ServerConfig → List Nat := fun _ => []

/-- Trivial concrete `Value` encoder for witnesses. -/
def encV0 : Value → List Nat := fun _ => []

/-- Trivial concrete `ServerConfig` decoder for witnesses. -/
def decC0 : List Nat → Option ServerConfig := fun _ => none

/-- Trivial concrete `Value` decoder for witnesses. -/
def decV0 : List Nat → Option Value := fun _ => none

/-- Trivial concrete `serde_json::to_value` stand-in for witnesses. -/
def encAJ0 : GenericAction → Value := fun _ => .vNull

/-- Concrete stand-in for `rmp_serde::to_vec` producing the single byte
`0x81`; any nonempty output exhibits the base64 discrepancy. -/
def binEnc81 : GenericAction → List Nat := fun _ => [129]

/-! ## Helper lemmas about the driver loop -/

theorem keysInsert_mem_of_mem {l : List Nat} {a : Nat} (k : Nat) (h : a ∈ l) :
    a ∈ keysInsert l k := by
  unfold keysInsert; split <;> simp [h]

theorem intClamp_nonneg {v lo hi : Int} (h : lo ≤ hi) (h0 : 0 ≤ lo) :
    0 ≤ intClamp v lo hi := by
  unfold intClamp; split_ifs <;> omega

theorem intClamp_le {v lo hi : Int} (h : lo ≤ hi) : intClamp v lo hi ≤ hi := by
  unfold intClamp; split_ifs <;> omega

theorem switchMode_fields (c : DriverLoopContext) (b : Bool) :
    (switchMode c b).cursor_x = c.cursor_x ∧
    (switchMode c b).cursor_y = c.cursor_y ∧
    (switchMode c b).calibration_mode = c.calibration_mode ∧
    (switchMode c b).master_width = c.master_width ∧
    (switchMode c b).master_height = c.master_height ∧
    (switchMode c b).remote_mode = b := by
  simp only [switchMode]; split_ifs <;> simp

theorem updateStatus_fields (c : DriverLoopContext) :
    (updateStatus c).cursor_x = c.cursor_x ∧
    (updateStatus c).cursor_y = c.cursor_y ∧
    (updateStatus c).calibration_mode = c.calibration_mode ∧
    (updateStatus c).master_width = c.master_width ∧
    (updateStatus c).master_height = c.master_height ∧
    (updateStatus c).remote_mode = c.remote_mode ∧
    (updateStatus c).inputs_grabbed = c.inputs_grabbed := by
  unfold updateStatus; simp

/-- In Local or Remote mode, a mouse move clamps the cursor into the
stitched rectangle and leaves the calibration flag and the master
dimensions unchanged. -/
theorem handleMouseMove_spec (c : DriverLoopContext) (mm : MouseMove)
    (h : c.calibration_mode = false) :
    (handleMouseMove c mm).cursor_x
        = intClamp (c.cursor_x + mm.x) 0 (c.master_width * 2 - 1) ∧
    (handleMouseMove c mm).cursor_y
        = intClamp (c.cursor_y + mm.y) 0 (c.master_height - 1) ∧
    (handleMouseMove c mm).calibration_mode = false ∧
    (handleMouseMove c mm).master_width = c.master_width ∧
    (handleMouseMove c mm).master_height = c.master_height := by
  unfold handleMouseMove
  simp only [h, Bool.false_eq_true, if_false]
  split_ifs <;>
    simp_all [switchMode, updateStatus, sendNetworkAction] <;>
    split_ifs <;> simp_all

/-- The cursor rectangle invariant of the stitched coordinate space. -/
def inCursorRange (c : DriverLoopContext) : Prop :=
  0 ≤ c.cursor_x ∧ c.cursor_x ≤ 2 * c.master_width - 1 ∧
  0 ≤ c.cursor_y ∧ c.cursor_y ≤ c.master_height - 1

theorem handleMouseMove_inRange (c : DriverLoopContext) (mm : MouseMove)
    (hcal : c.calibration_mode = false) (hw : 1 ≤ c.master_width)
    (hh : 1 ≤ c.master_height) : inCursorRange (handleMouseMove c mm) := by
  obtain ⟨hx, hy, _, hw', hh'⟩ := handleMouseMove_spec c mm hcal
  refine ⟨?_, ?_, ?_, ?_⟩ <;> simp only [hx, hy, hw', hh'] <;>
    first
    | exact intClamp_nonneg (by omega) (by omega)
    | (refine le_trans (intClamp_le (by omega)) (by omega))

theorem runMoves_cons (c : DriverLoopContext) (d : MouseMove) (ds : List MouseMove) :
    runMoves c (d :: ds) = runMoves (handleMouseMove c d) ds := by
  simp [runMoves, handleEvent]

theorem runMoves_invariant (ds : List MouseMove) (c : DriverLoopContext)
    (hcal : c.calibration_mode = false) (hw : 1 ≤ c.master_width)
    (hh : 1 ≤ c.master_height) (hr : inCursorRange c) :
    inCursorRange (runMoves c ds) ∧
    (runMoves c ds).master_width = c.master_width ∧
    (runMoves c ds).master_height = c.master_height := by
  induction ds generalizing c with
  | nil => exact ⟨hr, rfl, rfl⟩
  | cons d ds ih =>
    obtain ⟨_, _, hcal', hw', hh'⟩ := handleMouseMove_spec c d hcal
    rw [runMoves_cons]
    obtain ⟨h1, h2, h3⟩ := ih (handleMouseMove c d) hcal' (by omega) (by omega)
      (handleMouseMove_inRange c d hcal hw hh)
    exact ⟨h1, by omega, by omega⟩

/-- Claim C4: after calibration (`calibration_mode` false, master
dimensions at least 1), every nonempty sequence of mouse-move deltas
leaves the virtual cursor inside
`[0, 2·master_width − 1] × [0, master_height − 1]`. -/
theorem c4_cursor_saturation (c : DriverLoopContext)
    (hcal : c.calibration_mode = false) (hw : 1 ≤ c.master_width)
    (hh : 1 ≤ c.master_height) (ds : List MouseMove) (hds : ds ≠ []) :
    0 ≤ (runMoves c ds).cursor_x ∧
    (runMoves c ds).cursor_x ≤ 2 * c.master_width - 1 ∧
    0 ≤ (runMoves c ds).cursor_y ∧
    (runMoves c ds).cursor_y ≤ c.master_height - 1 := by
  match ds with
  | [] => exact absurd rfl hds
  | d :: ds =>
    rw [runMoves_cons]
    obtain ⟨_, _, hcal', hw', hh'⟩ := handleMouseMove_spec c d hcal
    obtain ⟨⟨a1, a2, a3, a4⟩, b1, b2⟩ :=
      runMoves_invariant ds (handleMouseMove c d) hcal' (by omega) (by omega)
        (handleMouseMove_inRange c d hcal hw hh)
    refine ⟨a1, by omega, a3, by omega⟩

/-- Witness for C4 at a concrete context and delta sequence. -/
theorem c4_witness :
    0 ≤ (runMoves
        { cursor_x := 0, cursor_y := 0, remote_mode := false
          calibration_mode := false, master_width := 10, master_height := 5
          inputs_grabbed := false, pressed_keys := [], runFlag := true
          status := MasterStatus.resetState, trace := [] }
        [⟨100, 100, 0⟩, ⟨-300, -2, 0⟩]).cursor_x ∧
    (runMoves
        { cursor_x := 0, cursor_y := 0, remote_mode := false
          calibration_mode := false, master_width := 10, master_height := 5
          inputs_grabbed := false, pressed_keys := [], runFlag := true
          status := MasterStatus.resetState, trace := [] }
        [⟨100, 100, 0⟩, ⟨-300, -2, 0⟩]).cursor_x ≤ 2 * 10 - 1 ∧
    0 ≤ (runMoves
        { cursor_x := 0, cursor_y := 0, remote_mode := false
          calibration_mode := false, master_width := 10, master_height := 5
          inputs_grabbed := false, pressed_keys := [], runFlag := true
          status := MasterStatus.resetState, trace := [] }
        [⟨100, 100, 0⟩, ⟨-300, -2, 0⟩]).cursor_y ∧
    (runMoves
        { cursor_x := 0, cursor_y := 0, remote_mode := false
          calibration_mode := false, master_width := 10, master_height := 5
          inputs_grabbed := false, pressed_keys := [], runFlag := true
          status := MasterStatus.resetState, trace := [] }
        [⟨100, 100, 0⟩, ⟨-300, -2, 0⟩]).cursor_y ≤ 5 - 1 :=
  c4_cursor_saturation _ rfl (by decide) (by decide) _ (by decide)

/-- Claim C10: the slave's packet handler replies `Ok` to every
received `Action` packet — also when decoding the action payload fails
and when simulating the decoded event fails — and never sends an `Err`
reply for an `Action`. -/
theorem c10_action_always_ok (v : Value) (decodeRes : Except String DriverEvent)
    (simRes : Except String Unit) (fileRecvRes : Except String Unit)
    (fileReadRes : Except String (List Nat)) :
    slaveHandlePacket (.action v) decodeRes simRes fileRecvRes fileReadRes
      = ([Packet.ok], false) ∧
    ((slaveHandlePacket (.action v) decodeRes simRes fileRecvRes
      fileReadRes).1.all fun r => !r.isErr) = true := by
  cases decodeRes <;> cases simRes <;> simp [slaveHandlePacket, Packet.isErr]

/-- Witness for C10: a failing decode and a failing simulation still
produce exactly one `Ok` reply. -/
theorem c10_witness :
    slaveHandlePacket (.action .vNull) (.error "bad action") (.error "sim fail")
      (.ok ()) (.ok []) = ([Packet.ok], false) :=
  (c10_action_always_ok .vNull (.error "bad action") (.error "sim fail")
    (.ok ()) (.ok [])).1

/-- Claim C6: a key-down of keycode 16 while 29 and 56 are held makes
`handle_event` store `false` into the running flag and return `false`;
the rest of the batch is skipped, the loop body never runs again, and
the exit path emits an ungrab exactly when `inputs_grabbed` is set. -/
theorem c6_failsafe (c : DriverLoopContext) (h29 : 29 ∈ c.pressed_keys)
    (h56 : 56 ∈ c.pressed_keys) (rest : List DriverEvent)
    (bs : List (List DriverEvent)) :
    (handleEvent c (.keyboardPress ⟨16, true⟩)).1 = false ∧
    (handleEvent c (.keyboardPress ⟨16, true⟩)).2.runFlag = false ∧
    processBatch c (.keyboardPress ⟨16, true⟩ :: rest)
      = (handleEvent c (.keyboardPress ⟨16, true⟩)).2 ∧
    driverRun (handleEvent c (.keyboardPress ⟨16, true⟩)).2 bs
      = (handleEvent c (.keyboardPress ⟨16, true⟩)).2 ∧
    (∀ c' : DriverLoopContext, c'.inputs_grabbed = true →
      (driverExit c').trace = c'.trace ++ [.ungrabbed]) ∧
    (∀ c' : DriverLoopContext, c'.inputs_grabbed = false →
      (driverExit c').trace = c'.trace) := by
  have hcond : (⟨16, true⟩ : KeyboardPress).pressed = true ∧
      29 ∈ keysInsert c.pressed_keys 16 ∧ 56 ∈ keysInsert c.pressed_keys 16 ∧
      (⟨16, true⟩ : KeyboardPress).key = 16 :=
    ⟨rfl, keysInsert_mem_of_mem 16 h29, keysInsert_mem_of_mem 16 h56, rfl⟩
  have hev : handleEvent c (.keyboardPress ⟨16, true⟩)
      = (false, { c with pressed_keys := keysInsert c.pressed_keys 16,
                         runFlag := false }) := by
    simp [handleEvent, hcond.2.1, hcond.2.2.1]
  refine ⟨by rw [hev], by rw [hev], ?_, ?_, ?_, ?_⟩
  · simp only [processBatch, hev]
  · rw [hev]; cases bs with
    | nil => rfl
    | cons b bs => simp [driverRun]
  · intro c' h; simp [driverExit, h]
  · intro c' h; simp [driverExit, h]

/-- Witness for C6 at a concrete context with Ctrl and Alt held. -/
theorem c6_witness :
    (handleEvent
      { cursor_x := 5, cursor_y := 5, remote_mode := true
        calibration_mode := false, master_width := 10, master_height := 10
        inputs_grabbed := true, pressed_keys := [29, 56], runFlag := true
        status := MasterStatus.resetState, trace := [] }
      (.keyboardPress ⟨16, true⟩)).1 = false ∧
    (handleEvent
      { cursor_x := 5, cursor_y := 5, remote_mode := true
        calibration_mode := false, master_width := 10, master_height := 10
        inputs_grabbed := true, pressed_keys := [29, 56], runFlag := true
        status := MasterStatus.resetState, trace := [] }
      (.keyboardPress ⟨16, true⟩)).2.runFlag = false :=
  ⟨(c6_failsafe _ (by decide) (by decide) [] []).1,
   (c6_failsafe _ (by decide) (by decide) [] []).2.1⟩

/-- Starting context of the driver loop right after `start`: cursor at
the origin, Calibration mode, dimensions from the reset status. -/
def e3Context : DriverLoopContext :=
  { cursor_x := 0, cursor_y := 0, remote_mode := false, calibration_mode := true
    master_width := 1920, master_height := 1080, inputs_grabbed := false
    pressed_keys := [], runFlag := true, status := MasterStatus.resetState
    trace := [] }

/-- The E3 scenario events: three deltas then the `c` key. -/
def e3Events : List DriverEvent :=
  [.mouseMove ⟨50, 30, 0⟩, .mouseMove ⟨10, 10, 0⟩, .mouseMove ⟨0, 0, 0⟩,
   .keyboardPress ⟨46, true⟩]

/-- Claim C7: in Calibration mode each mouse move accumulates with
saturation at 0 only; a press of keycode 46 sets
`master_width = max(cursor_x+1, 1)`, `master_height = max(cursor_y+1, 1)`
and leaves Calibration for Local; and the concrete E3 run from (0,0)
with deltas (+50,+30), (+10,+10), (+0,+0) then `c` yields 61 × 41. -/
theorem c7_calibration :
    (∀ (c : DriverLoopContext) (mm : MouseMove), c.calibration_mode = true →
      (handleEvent c (.mouseMove mm)).1 = true ∧
      (handleEvent c (.mouseMove mm)).2.cursor_x = max (c.cursor_x + mm.x) 0 ∧
      (handleEvent c (.mouseMove mm)).2.cursor_y = max (c.cursor_y + mm.y) 0 ∧
      (handleEvent c (.mouseMove mm)).2.calibration_mode = true ∧
      (handleEvent c (.mouseMove mm)).2.master_width = c.master_width ∧
      (handleEvent c (.mouseMove mm)).2.master_height = c.master_height ∧
      (handleEvent c (.mouseMove mm)).2.trace = c.trace) ∧
    (∀ c : DriverLoopContext, c.calibration_mode = true →
      (handleEvent c (.keyboardPress ⟨46, true⟩)).2.master_width
        = max (c.cursor_x + 1) 1 ∧
      (handleEvent c (.keyboardPress ⟨46, true⟩)).2.master_height
        = max (c.cursor_y + 1) 1 ∧
      (handleEvent c (.keyboardPress ⟨46, true⟩)).2.calibration_mode = false ∧
      (handleEvent c (.keyboardPress ⟨46, true⟩)).2.remote_mode = false) ∧
    ((processBatch e3Context e3Events).master_width = 61 ∧
     (processBatch e3Context e3Events).master_height = 41 ∧
     (processBatch e3Context e3Events).calibration_mode = false) := by
  refine ⟨?_, ?_, ?_⟩
  · intro c mm h
    simp [handleEvent, handleMouseMove, h, updateStatus]
  · intro c h
    simp [handleEvent, handleKeyPress, keysInsert, h, updateStatus]
  · exact ⟨by decide, by decide, by decide⟩

/-- Witness for C7 at the concrete E3 context. -/
theorem c7_witness :
    (handleEvent e3Context (.mouseMove ⟨50, 30, 0⟩)).2.cursor_x
        = max (0 + 50) 0 ∧
    (handleEvent e3Context (.keyboardPress ⟨46, true⟩)).2.master_width
        = max (0 + 1) 1 :=
  ⟨((c7_calibration.1 e3Context ⟨50, 30, 0⟩ rfl).2.1),
   ((c7_calibration.2.1 e3Context rfl).1)⟩

/-- Post-calibration context of the E4 cross-over scenario: Local mode
at (99, 50) with `master_width = 100` and a parametric
`master_height`. -/
def e4Context (h : Int) : DriverLoopContext :=
  { cursor_x := 99, cursor_y := 50, remote_mode := false
    calibration_mode := false, master_width := 100, master_height := h
    inputs_grabbed := false, pressed_keys := [], runFlag := true
    status := MasterStatus.resetState, trace := [] }

/-- Counterexample to claim C3 as stated: in the E4 scenario (here with
`master_height = 51`) the cursor positions move to 101, then 102, and
the final delta (−5, 0) brings x to 97, not to the claimed 96. -/
theorem c3_counterexample :
    (handleEvent (handleEvent (handleEvent (e4Context 51)
        (.mouseMove ⟨2, 0, 0⟩)).2
        (.mouseMove ⟨1, 0, 0⟩)).2
        (.mouseMove ⟨-5, 0, 0⟩)).2.cursor_x = 97 ∧
    ¬ (handleEvent (handleEvent (handleEvent (e4Context 51)
        (.mouseMove ⟨2, 0, 0⟩)).2
        (.mouseMove ⟨1, 0, 0⟩)).2
        (.mouseMove ⟨-5, 0, 0⟩)).2.cursor_x = 96 := by
  decide

/-- Claim C3 as amended: with `master_width = 100` and
`master_height ≥ 51`, from Local at (99,50) the delta (+2,0) switches
to Remote at (101,50) and grabs; the next (+1,0) publishes an `Action`
on the hub (and nothing else — in particular no local replay) while the
cursor moves to 102; the subsequent (−5,0) brings x to 97 (not 96),
switches back to Local, and ungrabs. -/
theorem c3_amended (H : Int) (hH : 51 ≤ H) :
    ((handleEvent (e4Context H) (.mouseMove ⟨2, 0, 0⟩)).2.remote_mode = true ∧
     (handleEvent (e4Context H) (.mouseMove ⟨2, 0, 0⟩)).2.cursor_x = 101 ∧
     (handleEvent (e4Context H) (.mouseMove ⟨2, 0, 0⟩)).2.cursor_y = 50 ∧
     (handleEvent (e4Context H) (.mouseMove ⟨2, 0, 0⟩)).2.inputs_grabbed = true) ∧
    ((handleEvent (handleEvent (e4Context H) (.mouseMove ⟨2, 0, 0⟩)).2
        (.mouseMove ⟨1, 0, 0⟩)).2.trace
      = (handleEvent (e4Context H) (.mouseMove ⟨2, 0, 0⟩)).2.trace
          ++ [.published (.mouseMove 1 0 0)] ∧
     (handleEvent (handleEvent (e4Context H) (.mouseMove ⟨2, 0, 0⟩)).2
        (.mouseMove ⟨1, 0, 0⟩)).2.cursor_x = 102) ∧
    ((handleEvent (handleEvent (handleEvent (e4Context H)
        (.mouseMove ⟨2, 0, 0⟩)).2 (.mouseMove ⟨1, 0, 0⟩)).2
        (.mouseMove ⟨-5, 0, 0⟩)).2.cursor_x = 97 ∧
     (handleEvent (handleEvent (handleEvent (e4Context H)
        (.mouseMove ⟨2, 0, 0⟩)).2 (.mouseMove ⟨1, 0, 0⟩)).2
        (.mouseMove ⟨-5, 0, 0⟩)).2.remote_mode = false ∧
     (handleEvent (handleEvent (handleEvent (e4Context H)
        (.mouseMove ⟨2, 0, 0⟩)).2 (.mouseMove ⟨1, 0, 0⟩)).2
        (.mouseMove ⟨-5, 0, 0⟩)).2.inputs_grabbed = false ∧
     (handleEvent (handleEvent (handleEvent (e4Context H)
        (.mouseMove ⟨2, 0, 0⟩)).2 (.mouseMove ⟨1, 0, 0⟩)).2
        (.mouseMove ⟨-5, 0, 0⟩)).2.trace
      = (handleEvent (handleEvent (e4Context H) (.mouseMove ⟨2, 0, 0⟩)).2
          (.mouseMove ⟨1, 0, 0⟩)).2.trace ++ [.ungrabbed]) := by
  have h1 : (handleEvent (e4Context H) (.mouseMove ⟨2, 0, 0⟩)).2
      = { cursor_x := 101, cursor_y := 50, remote_mode := true
          calibration_mode := false, master_width := 100, master_height := H
          inputs_grabbed := true, pressed_keys := [], runFlag := true
          status := { running := true, calibration_mode := false
                      cursor_x := 101, cursor_y := 50, master_width := 100
                      master_height := H, remote_mode := true }
          trace := [.grabbed, .published (.mouseMove 2 0 0)] } := by
    simp [handleEvent, handleMouseMove, e4Context, switchMode,
      updateStatus, sendNetworkAction, intClamp]
    omega
  have h2 : (handleEvent (handleEvent (e4Context H) (.mouseMove ⟨2, 0, 0⟩)).2
      (.mouseMove ⟨1, 0, 0⟩)).2
      = { cursor_x := 102, cursor_y := 50, remote_mode := true
          calibration_mode := false, master_width := 100, master_height := H
          inputs_grabbed := true, pressed_keys := [], runFlag := true
          status := { running := true, calibration_mode := false
                      cursor_x := 102, cursor_y := 50, master_width := 100
                      master_height := H, remote_mode := true }
          trace := [.grabbed, .published (.mouseMove 2 0 0),
                    .published (.mouseMove 1 0 0)] } := by
    rw [h1]
    simp [handleEvent, handleMouseMove, switchMode,
      updateStatus, sendNetworkAction, intClamp]
    omega
  have h3 : (handleEvent (handleEvent (handleEvent (e4Context H)
      (.mouseMove ⟨2, 0, 0⟩)).2 (.mouseMove ⟨1, 0, 0⟩)).2
      (.mouseMove ⟨-5, 0, 0⟩)).2
      = { cursor_x := 97, cursor_y := 50, remote_mode := false
          calibration_mode := false, master_width := 100, master_height := H
          inputs_grabbed := false, pressed_keys := [], runFlag := true
          status := { running := true, calibration_mode := false
                      cursor_x := 97, cursor_y := 50, master_width := 100
                      master_height := H, remote_mode := false }
          trace := [.grabbed, .published (.mouseMove 2 0 0),
                    .published (.mouseMove 1 0 0), .ungrabbed] } := by
    rw [h2]
    simp [handleEvent, handleMouseMove, switchMode,
      updateStatus, sendNetworkAction, intClamp]
    omega
  rw [h3, h2, h1]
  refine ⟨⟨rfl, rfl, rfl, rfl⟩, ⟨rfl, rfl⟩, rfl, rfl, rfl, rfl⟩

/-- Witness for C3 (amended) at `master_height = 51`. -/
theorem c3_witness :
    (handleEvent (e4Context 51) (.mouseMove ⟨2, 0, 0⟩)).2.remote_mode = true ∧
    (handleEvent (handleEvent (handleEvent (e4Context 51)
        (.mouseMove ⟨2, 0, 0⟩)).2 (.mouseMove ⟨1, 0, 0⟩)).2
        (.mouseMove ⟨-5, 0, 0⟩)).2.cursor_x = 97 :=
  ⟨(c3_amended 51 (by decide)).1.1, (c3_amended 51 (by decide)).2.2.1⟩

/-- Post-calibration context for the mode-parity scenarios: Local at
(0, 0) with `master_width = 10`. -/
def c5Context : DriverLoopContext :=
  { cursor_x := 0, cursor_y := 0, remote_mode := false
    calibration_mode := false, master_width := 10, master_height := 1
    inputs_grabbed := false, pressed_keys := [], runFlag := true
    status := MasterStatus.resetState, trace := [] }

/-- Counterexample to claim C5 as stated: for `W = 10` and deltas
(+15, 0), (−15, 0), the running x-sum crosses `W` exactly once counting
entry only (an odd number of times), yet the final mode is Local, not
Remote: the exit crossing also switches the mode. -/
theorem c5_counterexample :
    specEntryCrossings 10 0 [⟨15, 0, 0⟩, ⟨-15, 0, 0⟩] = 1 ∧
    specEntryCrossings 10 0 [⟨15, 0, 0⟩, ⟨-15, 0, 0⟩] % 2 = 1 ∧
    (runMoves c5Context [⟨15, 0, 0⟩, ⟨-15, 0, 0⟩]).remote_mode = false := by
  refine ⟨by decide, by decide, by decide⟩

theorem handleMouseMove_remote (c : DriverLoopContext) (mm : MouseMove)
    (h : c.calibration_mode = false) :
    (handleMouseMove c mm).remote_mode
      = ((intClamp (c.cursor_x + mm.x) 0 (c.master_width * 2 - 1)
          ≥ c.master_width : Bool)) := by
  simp only [handleMouseMove, h, Bool.false_eq_true, if_false,
    apply_ite DriverLoopContext.remote_mode]
  split_ifs <;>
    simp_all [switchMode, updateStatus, sendNetworkAction,
      apply_ite DriverLoopContext.remote_mode]

theorem runMoves_parity (ds : List MouseMove) (c : DriverLoopContext)
    (hcal : c.calibration_mode = false) :
    (runMoves c ds).remote_mode
      = (c.remote_mode ^^ decide (modeSwitchCount c ds % 2 = 1)) := by
  induction ds generalizing c with
  | nil => simp [runMoves, modeSwitchCount]
  | cons d ds ih =>
    obtain ⟨_, _, hcal', _, _⟩ := handleMouseMove_spec c d hcal
    have hstep : (handleEvent c (.mouseMove d)).2 = handleMouseMove c d := by
      simp [handleEvent]
    rw [runMoves_cons]
    rw [ih (handleMouseMove c d) hcal']
    have hms : modeSwitchCount c (d :: ds)
        = (if (handleMouseMove c d).remote_mode = c.remote_mode then 0 else 1)
          + modeSwitchCount (handleMouseMove c d) ds := by
      simp [modeSwitchCount, hstep]
    rw [hms]
    by_cases hyx : (handleMouseMove c d).remote_mode = c.remote_mode
    · rw [if_pos hyx, Nat.zero_add, hyx]
    · rw [if_neg hyx]
      have hd : decide ((1 + modeSwitchCount (handleMouseMove c d) ds) % 2 = 1)
          = !decide (modeSwitchCount (handleMouseMove c d) ds % 2 = 1) := by
        by_cases hm : modeSwitchCount (handleMouseMove c d) ds % 2 = 1 <;>
          simp [hm] <;> omega
      rw [hd]
      have hxy : (handleMouseMove c d).remote_mode = !c.remote_mode := by
        cases hcd : (handleMouseMove c d).remote_mode <;>
          cases hc : c.remote_mode <;> simp_all
      rw [hxy]
      cases c.remote_mode <;>
        cases decide (modeSwitchCount (handleMouseMove c d) ds % 2 = 1) <;> rfl

/-- Claim C5 as amended: starting from Local after calibration, the
final mode is Remote exactly when the number of boundary crossings of
the *saturated* virtual cursor — mode switches, counting entries and
exits — is odd.  (Counting entries of the raw running x-sum only, as
the claim states it, is refuted by `c5_counterexample`.) -/
theorem c5_amended (c : DriverLoopContext) (hcal : c.calibration_mode = false)
    (hrem : c.remote_mode = false) (ds : List MouseMove) :
    ((runMoves c ds).remote_mode = true ↔ modeSwitchCount c ds % 2 = 1) := by
  rw [runMoves_parity ds c hcal, hrem]
  cases hd : decide (modeSwitchCount c ds % 2 = 1) with
  | false => simp_all
  | true => simp_all

/-- Witness for C5 (amended): one crossing, final mode Remote. -/
theorem c5_witness :
    (runMoves c5Context [⟨15, 0, 0⟩]).remote_mode = true
      ↔ modeSwitchCount c5Context [⟨15, 0, 0⟩] % 2 = 1 :=
  c5_amended c5Context rfl rfl [⟨15, 0, 0⟩]

/-- Counterexample to claim C9 as stated: when the first packet on the
connection is not `ServerHello` (here: `Ok`), the handler task exits
without removing the stop-notifier entry that the accept path inserted,
so the entry outlives the task. -/
theorem c9_counterexample :
    (clientTaskNet (some Packet.ok) "client" ⟨[], []⟩).stoppers = ["client"] ∧
    "client" ∈ (clientTaskNet (some Packet.ok) "client" ⟨[], []⟩).stoppers := by
  refine ⟨rfl, by simp [clientTaskNet, clientHandlerMaps, acceptClient, stoppersInsert]⟩

theorem removeClient_append_fresh (l : List ConnectedClientInfo) (addr : String)
    (cl : ConnectedClientInfo) (hid : cl.id = addr)
    (h : ∀ x ∈ l, x.id ≠ addr) : removeClient (l ++ [cl]) addr = l := by
  induction l with
  | nil => simp [removeClient, hid]
  | cons x xs ih =>
    have hx : x.id ≠ addr := h x (by simp)
    simp only [List.cons_append, removeClient, if_neg hx, List.append_eq]
    rw [ih (fun y hy => h y (by simp [hy]))]

theorem stoppersRemove_insert (s : List String) (a : String) :
    stoppersRemove (stoppersInsert s a) a = stoppersRemove s a := by
  unfold stoppersInsert stoppersRemove
  split_ifs with h
  · rfl
  · simp

/-- Claim C9 as amended: a per-client task that completed the hello
removes, on exit, both its `ConnectedClient` record and its
stop-notifier entry (assuming the address is fresh, as for a new
connection).  A task whose first packet is not `ServerHello`, or whose
hello receive fails, creates no `ConnectedClient` record but leaves the
stop-notifier entry inserted by the accept path in the mapping: the
entries do not, in general, live exactly as long as the task. -/
theorem c9_amended (hello : Option Packet) (addr : String) (st : MasterNetState)
    (hfresh : ∀ cl ∈ st.clients, cl.id ≠ addr) :
    (∀ config : ServerConfig, hello = some (.serverHello config) →
      (clientTaskNet hello addr st).clients = st.clients ∧
      (∀ cl ∈ (clientTaskNet hello addr st).clients, cl.id ≠ addr) ∧
      addr ∉ (clientTaskNet hello addr st).stoppers) ∧
    ((∀ config : ServerConfig, hello ≠ some (.serverHello config)) →
      clientTaskNet hello addr st = acceptClient st addr ∧
      addr ∈ (clientTaskNet hello addr st).stoppers) := by
  constructor
  · intro config hc
    subst hc
    have hcl : (clientTaskNet (some (.serverHello config)) addr st).clients
        = st.clients := by
      simp only [clientTaskNet, clientHandlerMaps, acceptClient]
      exact removeClient_append_fresh st.clients addr _ rfl hfresh
    refine ⟨hcl, ?_, ?_⟩
    · rw [hcl]; exact hfresh
    · simp only [clientTaskNet, clientHandlerMaps, acceptClient,
        stoppersRemove_insert]
      simp [stoppersRemove]
  · intro hne
    have hid : clientHandlerMaps hello addr (acceptClient st addr)
        = acceptClient st addr := by
      match hello with
      | none => rfl
      | some .ok => rfl
      | some (.err _ _) => rfl
      | some (.serverHello config) => exact absurd rfl (hne config)
      | some (.action _) => rfl
      | some .clientQuit => rfl
      | some (.dropSend _) => rfl
      | some (.dropReq _) => rfl
      | some (.data _) => rfl
      | some .edgeL => rfl
      | some .edgeR => rfl
    refine ⟨hid, ?_⟩
    show addr ∈ (clientTaskNet hello addr st).stoppers
    unfold clientTaskNet
    rw [hid]
    simp only [acceptClient, stoppersInsert]
    split_ifs with h
    · exact h
    · simp

/-- Witness for C9 (amended) applied at a successful hello with a fresh
address: both mappings are clean after the task exits. -/
theorem c9_witness :
    (clientTaskNet (some (.serverHello ⟨1, 1920, 1080, [104]⟩)) "client"
      ⟨[], ["other"]⟩).clients = [] ∧
    "client" ∉ (clientTaskNet (some (.serverHello ⟨1, 1920, 1080, [104]⟩)) "client"
      ⟨[], ["other"]⟩).stoppers := by
  have h := c9_amended (some (.serverHello ⟨1, 1920, 1080, [104]⟩)) "client"
    ⟨[], ["other"]⟩ (by simp)
  exact ⟨(h.1 _ rfl).1, (h.1 _ rfl).2.2⟩

/-- The wire body of a Compact-mode action frame: the bytes following
the kind byte (3) and the 4-byte length prefix. -/
def compactActionBody (encC : ServerConfig → List Nat) (encV : Value → List Nat)
    (encAJ : GenericAction → Value) (binEnc : GenericAction → List Nat)
    (action : GenericAction) : List Nat :=
  (compactActionFrame encC encV encAJ binEnc action).drop 5

/-- Counterexample to claim C2 as stated: with a MessagePack encoder
producing the single byte `0x81`, the wire body of the Compact-mode
action frame is the base64 text `gQ==` (bytes 103, 81, 61, 61), not the
raw MessagePack byte `0x81`. -/
theorem c2_counterexample :
    compactActionBody encC0 encV0 encAJ0 binEnc81 (.mouseMove 0 0 0)
      = [103, 81, 61, 61] ∧
    compactActionBody encC0 encV0 encAJ0 binEnc81 (.mouseMove 0 0 0)
      ≠ binEnc81 (.mouseMove 0 0 0) := by
  refine ⟨by decide, by decide⟩

/-- Claim C2 as amended: in Compact (Binary) mode the wire body of the
Action packet produced by `serialize_action` followed by
`serialize_with_mode` is the standard base64 encoding of the
MessagePack bytes of the action, written as ASCII text; whenever the
MessagePack encoding is nonempty, this differs from the raw MessagePack
bytes (base64 strictly expands every nonempty input). -/
theorem c2_amended (encC : ServerConfig → List Nat) (encV : Value → List Nat)
    (encAJ : GenericAction → Value) (binEnc : GenericAction → List Nat)
    (a : GenericAction) (hne : binEnc a ≠ []) :
    compactActionFrame encC encV encAJ binEnc a
      = 3 :: u32be (base64Encode (binEnc a)).length ++ base64Encode (binEnc a) ∧
    compactActionBody encC encV encAJ binEnc a = base64Encode (binEnc a) ∧
    compactActionBody encC encV encAJ binEnc a ≠ binEnc a := by
  have hframe : compactActionFrame encC encV encAJ binEnc a
      = 3 :: u32be (base64Encode (binEnc a)).length ++ base64Encode (binEnc a) := by
    simp [compactActionFrame, serializeWithMode, serializeAction,
      insertIntoBuf, Packet.typeByte]
  have hbody : compactActionBody encC encV encAJ binEnc a
      = base64Encode (binEnc a) := by
    rw [compactActionBody, hframe]
    show (u32be (base64Encode (binEnc a)).length ++ base64Encode (binEnc a)).drop 4
      = base64Encode (binEnc a)
    exact List.drop_left' (u32be_length _)
  refine ⟨hframe, hbody, ?_⟩
  rw [hbody]
  intro heq
  have hlen := congrArg List.length heq
  rw [base64Encode_length] at hlen
  have hpos : 1 ≤ (binEnc a).length := by
    cases hb : binEnc a with
    | nil => exact absurd hb hne
    | cons x xs => simp [hb]
  omega

/-- Witness for C2 (amended) at the concrete one-byte encoder. -/
theorem c2_witness :
    compactActionBody encC0 encV0 encAJ0 binEnc81 (.keyPress [49] true)
      = base64Encode (binEnc81 (.keyPress [49] true)) ∧
    compactActionBody encC0 encV0 encAJ0 binEnc81 (.keyPress [49] true)
      ≠ binEnc81 (.keyPress [49] true) :=
  ⟨(c2_amended encC0 encV0 encAJ0 binEnc81 (.keyPress [49] true) (by decide)).2.1,
   (c2_amended encC0 encV0 encAJ0 binEnc81 (.keyPress [49] true) (by decide)).2.2⟩

/-! ## Round-trip and framing lemmas for the packet codec -/

theorem utf8Lossy_valid {l : List Nat} (h : utf8Valid l = true) :
    utf8Lossy l = l := by
  simp [utf8Lossy, h]

theorem stringFromUtf8_valid {l : List Nat} (h : utf8Valid l = true) :
    stringFromUtf8 l = some l := by
  simp [stringFromUtf8, h]

theorem ErrorCode.fromByte_toByte (code : ErrorCode) :
    ErrorCode.fromByte code.toByte = code := by
  cases code <;> rfl

theorem insertIntoBuf_length (body : List Nat) :
    (insertIntoBuf body).length = 4 + body.length := by
  simp only [insertIntoBuf, List.length_append, u32be_length]

/-- Reading the payload of a well-formed frame `t :: len ++ body` at
offset 1 returns exactly the body when its length fits in 32 bits. -/
theorem readPayload_frame (t : Nat) (body : List Nat) (nm : String)
    (h : body.length < 4294967296) :
    readPayload (t :: insertIntoBuf body) 1 nm = .ok body := by
  have hlength : (t :: insertIntoBuf body).length = 5 + body.length := by
    simp only [List.length_cons, insertIntoBuf_length]; omega
  have h1 : (t :: insertIntoBuf body).drop 1 = u32be body.length ++ body := rfl
  have h2 : (u32be body.length ++ body).take 4 = u32be body.length :=
    List.take_left' (u32be_length _)
  have h3 : (t :: insertIntoBuf body).drop (1 + 4) = body := by
    show (insertIntoBuf body).drop 4 = body
    exact List.drop_left' (u32be_length _)
  simp only [readPayload, hlength, h1, h2, beToNat_u32be _ h]
  rw [if_neg (by omega), if_neg (by omega), h3, List.take_length]

/-- The same at offset 2 (error frames: kind byte, then code byte). -/
theorem readPayload_frame2 (t c0 : Nat) (body : List Nat) (nm : String)
    (h : body.length < 4294967296) :
    readPayload (t :: c0 :: insertIntoBuf body) 2 nm = .ok body := by
  have hlength : (t :: c0 :: insertIntoBuf body).length = 6 + body.length := by
    simp only [List.length_cons, insertIntoBuf_length]; omega
  have h1 : (t :: c0 :: insertIntoBuf body).drop 2 = u32be body.length ++ body := rfl
  have h2 : (u32be body.length ++ body).take 4 = u32be body.length :=
    List.take_left' (u32be_length _)
  have h3 : (t :: c0 :: insertIntoBuf body).drop (2 + 4) = body := by
    show (insertIntoBuf body).drop 4 = body
    exact List.drop_left' (u32be_length _)
  simp only [readPayload, hlength, h1, h2, beToNat_u32be _ h]
  rw [if_neg (by omega), if_neg (by omega), h3, List.take_length]

/-- The hypotheses under which a packet survives the codec round trip:
`Err` messages nonempty (the decoder rejects the 6-byte empty-message
frame), all payloads shorter than 2^32 (the length prefix truncates),
strings valid UTF-8 (automatic for Rust `String`s), the serde codec a
retraction at the packet's own payload (a serde property), and — in
Binary mode — `Action` payloads that are JSON strings, as
`serialize_action` produces (the Binary decoder rebuilds a string
unconditionally). -/
def RoundTripSafe (p : Packet) (mode : SerializationMode)
    (encC : ServerConfig → List Nat) (decC : List Nat → Option ServerConfig)
    (encV : Value → List Nat) (decV : List Nat → Option Value) : Prop :=
  match p with
  | .ok | .clientQuit | .edgeL | .edgeR => True
  | .err _ message =>
    message ≠ [] ∧ utf8Valid message = true ∧ message.length < 4294967296
  | .serverHello config =>
    decC (encC config) = some config ∧ (encC config).length < 4294967296
  | .action payload =>
    match mode with
    | .json => decV (encV payload) = some payload ∧ (encV payload).length < 4294967296
    | .binary =>
      ∃ s, payload = .vStr s ∧ utf8Valid s = true ∧ s.length < 4294967296
  | .dropSend filename | .dropReq filename =>
    utf8Valid filename = true ∧ filename.length < 4294967296
  | .data bytes => bytes.length < 4294967296

theorem deserialize_hello_frame (decC : List Nat → Option ServerConfig)
    (decV : List Nat → Option Value) (body : List Nat)
    (mode : SerializationMode) (h : body.length < 4294967296) :
    deserializeWithMode decC decV (2 :: insertIntoBuf body) mode
      = match decC body with
        | some config => .ok (.serverHello config)
        | none => .error "Deserialization error" := by
  have hstep : deserializeWithMode decC decV (2 :: insertIntoBuf body) mode
      = match readPayload (2 :: insertIntoBuf body) 1 "ServerHello" with
        | .error e => .error e
        | .ok payload =>
          match decC payload with
          | some config => .ok (.serverHello config)
          | none => .error "Deserialization error" := rfl
  rw [hstep, readPayload_frame 2 body "ServerHello" h]

theorem deserialize_action_frame (decC : List Nat → Option ServerConfig)
    (decV : List Nat → Option Value) (body : List Nat)
    (mode : SerializationMode) (h : body.length < 4294967296) :
    deserializeWithMode decC decV (3 :: insertIntoBuf body) mode
      = match mode with
        | .json =>
          match decV body with
          | some v => .ok (.action v)
          | none => .error "Deserialization error"
        | .binary =>
          match stringFromUtf8 body with
          | some s => .ok (.action (.vStr s))
          | none => .error "Invalid Action payload encoding" := by
  have hstep : deserializeWithMode decC decV (3 :: insertIntoBuf body) mode
      = match readPayload (3 :: insertIntoBuf body) 1 "Action" with
        | .error e => .error e
        | .ok payload =>
          match mode with
          | .json =>
            match decV payload with
            | some v => .ok (.action v)
            | none => .error "Deserialization error"
          | .binary =>
            match stringFromUtf8 payload with
            | some s => .ok (.action (.vStr s))
            | none => .error "Invalid Action payload encoding" := rfl
  rw [hstep, readPayload_frame 3 body "Action" h]

theorem deserialize_dropSend_frame (decC : List Nat → Option ServerConfig)
    (decV : List Nat → Option Value) (body : List Nat)
    (mode : SerializationMode) (h : body.length < 4294967296) :
    deserializeWithMode decC decV (5 :: insertIntoBuf body) mode
      = .ok (.dropSend (utf8Lossy body)) := by
  have hstep : deserializeWithMode decC decV (5 :: insertIntoBuf body) mode
      = match readPayload (5 :: insertIntoBuf body) 1 "Drop" with
        | .error e => .error e
        | .ok payload => .ok (.dropSend (utf8Lossy payload)) := rfl
  rw [hstep, readPayload_frame 5 body "Drop" h]

theorem deserialize_dropReq_frame (decC : List Nat → Option ServerConfig)
    (decV : List Nat → Option Value) (body : List Nat)
    (mode : SerializationMode) (h : body.length < 4294967296) :
    deserializeWithMode decC decV (6 :: insertIntoBuf body) mode
      = .ok (.dropReq (utf8Lossy body)) := by
  have hstep : deserializeWithMode decC decV (6 :: insertIntoBuf body) mode
      = match readPayload (6 :: insertIntoBuf body) 1 "Drop" with
        | .error e => .error e
        | .ok payload => .ok (.dropReq (utf8Lossy payload)) := rfl
  rw [hstep, readPayload_frame 6 body "Drop" h]

theorem deserialize_data_frame (decC : List Nat → Option ServerConfig)
    (decV : List Nat → Option Value) (body : List Nat)
    (mode : SerializationMode) (h : body.length < 4294967296) :
    deserializeWithMode decC decV (7 :: insertIntoBuf body) mode
      = .ok (.data body) := by
  have hstep : deserializeWithMode decC decV (7 :: insertIntoBuf body) mode
      = match readPayload (7 :: insertIntoBuf body) 1 "Data" with
        | .error e => .error e
        | .ok payload => .ok (.data payload) := rfl
  rw [hstep, readPayload_frame 7 body "Data" h]

theorem deserialize_err_frame (decC : List Nat → Option ServerConfig)
    (decV : List Nat → Option Value) (ct : Nat) (body : List Nat)
    (mode : SerializationMode) (h : body.length < 4294967296)
    (hpos : body ≠ []) :
    deserializeWithMode decC decV (1 :: ct :: insertIntoBuf body) mode
      = .ok (.err (ErrorCode.fromByte ct) (utf8Lossy body)) := by
  have hstep : deserializeWithMode decC decV (1 :: ct :: insertIntoBuf body) mode
      = deserializeError (1 :: ct :: insertIntoBuf body) := rfl
  have hlength : (1 :: ct :: insertIntoBuf body).length = 6 + body.length := by
    simp only [List.length_cons, insertIntoBuf_length]; omega
  have hb : 1 ≤ body.length := by
    cases hb : body with
    | nil => exact absurd hb hpos
    | cons x xs => simp [hb]
  rw [hstep]
  unfold deserializeError
  rw [if_neg (by omega), readPayload_frame2 1 ct body "Error" h]
  rfl

/-- Claim C1 as amended: `deserialize_with_mode ∘ serialize_with_mode`
is the identity on every packet satisfying `RoundTripSafe` — i.e. on
all packets except `Err` with an empty message (rejected by the
decoder's 7-byte minimum, see `c1_counterexample`) and, in Binary mode,
`Action` payloads that are not JSON strings (rebuilt as strings by the
decoder); payload sizes below 2^32, valid UTF-8 and a serde codec that
is a retraction at the payload are assumed throughout. -/
theorem c1_roundtrip (mode : SerializationMode)
    (encC : ServerConfig → List Nat) (decC : List Nat → Option ServerConfig)
    (encV : Value → List Nat) (decV : List Nat → Option Value) (p : Packet)
    (h : RoundTripSafe p mode encC decC encV decV) :
    deserializeWithMode decC decV (serializeWithMode encC encV p mode) mode
      = .ok p := by
  match p with
  | .ok => rfl
  | .clientQuit => rfl
  | .edgeL => rfl
  | .edgeR => rfl
  | .err code message =>
    obtain ⟨hne, hval, hlen⟩ := h
    show deserializeWithMode decC decV
      (1 :: code.toByte :: insertIntoBuf message) mode = .ok (.err code message)
    rw [deserialize_err_frame decC decV code.toByte message mode hlen hne,
      ErrorCode.fromByte_toByte, utf8Lossy_valid hval]
  | .serverHello config =>
    obtain ⟨hdec, hlen⟩ := h
    show deserializeWithMode decC decV
      (2 :: insertIntoBuf (encC config)) mode = .ok (.serverHello config)
    rw [deserialize_hello_frame decC decV (encC config) mode hlen, hdec]
  | .action payload =>
    match mode with
    | .json =>
      obtain ⟨hdec, hlen⟩ := h
      show deserializeWithMode decC decV
        (3 :: insertIntoBuf (encV payload)) .json = .ok (.action payload)
      rw [deserialize_action_frame decC decV (encV payload) .json hlen, hdec]
    | .binary =>
      obtain ⟨s, hs, hval, hlen⟩ := h
      subst hs
      show deserializeWithMode decC decV
        (3 :: insertIntoBuf s) .binary = .ok (.action (.vStr s))
      rw [deserialize_action_frame decC decV s .binary hlen,
        stringFromUtf8_valid hval]
  | .dropSend filename =>
    obtain ⟨hval, hlen⟩ := h
    show deserializeWithMode decC decV
      (5 :: insertIntoBuf filename) mode = .ok (.dropSend filename)
    rw [deserialize_dropSend_frame decC decV filename mode hlen,
      utf8Lossy_valid hval]
  | .dropReq filename =>
    obtain ⟨hval, hlen⟩ := h
    show deserializeWithMode decC decV
      (6 :: insertIntoBuf filename) mode = .ok (.dropReq filename)
    rw [deserialize_dropReq_frame decC decV filename mode hlen,
      utf8Lossy_valid hval]
  | .data bytes =>
    show deserializeWithMode decC decV
      (7 :: insertIntoBuf bytes) mode = .ok (.data bytes)
    exact deserialize_data_frame decC decV bytes mode h

/-- Counterexample to claim C1 as stated: an `Err` packet with an empty
message serializes to the 6-byte frame [1, 0, 0, 0, 0, 0], which the
decoder rejects (its minimum is 7 bytes); and in Binary mode an
`Action` whose payload is not a JSON string (here the number 5) comes
back as a string-valued `Action`, never as the original value —
regardless of the serde encoder, of which only the trivial one is
instantiated here. -/
theorem c1_counterexample :
    serializeWithMode encC0 encV0 (.err .unknown []) .json = [1, 0, 0, 0, 0, 0] ∧
    deserializeWithMode decC0 decV0
      (serializeWithMode encC0 encV0 (.err .unknown []) .json) .json
      = .error "Invalid error protocol" ∧
    deserializeWithMode decC0 decV0
      (serializeWithMode encC0 encV0 (.action (.vNum 5)) .binary) .binary
      = .ok (.action (.vStr [])) ∧
    Value.vStr [] ≠ Value.vNum 5 := by
  refine ⟨rfl, rfl, rfl, fun hcontra => Value.noConfusion hcontra⟩

/-- Witness for C1 (amended) at a concrete `Err` packet with the
two-byte message "hi" under the Text mode. -/
theorem c1_witness :
    deserializeWithMode decC0 decV0
      (serializeWithMode encC0 encV0 (.err .notFound [104, 105]) .json) .json
      = .ok (.err .notFound [104, 105]) :=
  c1_roundtrip .json encC0 decC0 encV0 decV0 (.err .notFound [104, 105])
    ⟨by decide, by decide, by decide⟩

/-! ## Framing robustness: strict prefixes of frames never decode -/

theorem deserialize_cons1 (decC : List Nat → Option ServerConfig)
    (decV : List Nat → Option Value) (t : List Nat) (mode : SerializationMode) :
    deserializeWithMode decC decV (1 :: t) mode = deserializeError (1 :: t) := rfl

theorem deserialize_cons2 (decC : List Nat → Option ServerConfig)
    (decV : List Nat → Option Value) (t : List Nat) (mode : SerializationMode) :
    deserializeWithMode decC decV (2 :: t) mode
      = match readPayload (2 :: t) 1 "ServerHello" with
        | .error e => .error e
        | .ok payload =>
          match decC payload with
          | some config => .ok (.serverHello config)
          | none => .error "Deserialization error" := rfl

theorem deserialize_cons3 (decC : List Nat → Option ServerConfig)
    (decV : List Nat → Option Value) (t : List Nat) (mode : SerializationMode) :
    deserializeWithMode decC decV (3 :: t) mode
      = match readPayload (3 :: t) 1 "Action" with
        | .error e => .error e
        | .ok payload =>
          match mode with
          | .json =>
            match decV payload with
            | some v => .ok (.action v)
            | none => .error "Deserialization error"
          | .binary =>
            match stringFromUtf8 payload with
            | some s => .ok (.action (.vStr s))
            | none => .error "Invalid Action payload encoding" := rfl

theorem deserialize_cons5 (decC : List Nat → Option ServerConfig)
    (decV : List Nat → Option Value) (t : List Nat) (mode : SerializationMode) :
    deserializeWithMode decC decV (5 :: t) mode
      = match readPayload (5 :: t) 1 "Drop" with
        | .error e => .error e
        | .ok payload => .ok (.dropSend (utf8Lossy payload)) := rfl

theorem deserialize_cons6 (decC : List Nat → Option ServerConfig)
    (decV : List Nat → Option Value) (t : List Nat) (mode : SerializationMode) :
    deserializeWithMode decC decV (6 :: t) mode
      = match readPayload (6 :: t) 1 "Drop" with
        | .error e => .error e
        | .ok payload => .ok (.dropReq (utf8Lossy payload)) := rfl

theorem deserialize_cons7 (decC : List Nat → Option ServerConfig)
    (decV : List Nat → Option Value) (t : List Nat) (mode : SerializationMode) :
    deserializeWithMode decC decV (7 :: t) mode
      = match readPayload (7 :: t) 1 "Data" with
        | .error e => .error e
        | .ok payload => .ok (.data payload) := rfl

/-- A strict prefix of a length-prefixed payload frame always fails
`read_payload` at offset 1: short of the length field it is invalid,
short of the payload it is truncated. -/
theorem readPayload_take_err (t : Nat) (body : List Nat) (j : Nat) (nm : String)
    (hlen : body.length < 4294967296) (hj : j < 4 + body.length) :
    ∃ e, readPayload (t :: (insertIntoBuf body).take j) 1 nm = .error e := by
  have hlj : ((insertIntoBuf body).take j).length = j := by
    rw [List.length_take, insertIntoBuf_length]; omega
  have hdat : (t :: (insertIntoBuf body).take j).length = 1 + j := by
    simp [hlj]; omega
  by_cases h5 : (t :: (insertIntoBuf body).take j).length < 1 + 4
  · exact ⟨"Invalid " ++ nm ++ " protocol", by unfold readPayload; rw [if_pos h5]⟩
  · have hj4 : 4 ≤ j := by omega
    have htk : ((t :: (insertIntoBuf body).take j).drop 1).take 4 = u32be body.length := by
      show ((insertIntoBuf body).take j).take 4 = u32be body.length
      rw [List.take_take]
      have : min 4 j = 4 := by omega
      rw [this]
      exact List.take_left' (u32be_length _)
    refine ⟨"Truncated " ++ nm ++ " protocol", ?_⟩
    unfold readPayload
    rw [if_neg h5, htk, beToNat_u32be _ hlen, if_pos (by omega)]

/-- The same at offset 2 (error frames). -/
theorem readPayload_take2_err (t c0 : Nat) (body : List Nat) (j : Nat) (nm : String)
    (hlen : body.length < 4294967296) (hj : j < 4 + body.length) :
    ∃ e, readPayload (t :: c0 :: (insertIntoBuf body).take j) 2 nm = .error e := by
  have hlj : ((insertIntoBuf body).take j).length = j := by
    rw [List.length_take, insertIntoBuf_length]; omega
  have hdat : (t :: c0 :: (insertIntoBuf body).take j).length = 2 + j := by
    simp [hlj]; omega
  by_cases h6 : (t :: c0 :: (insertIntoBuf body).take j).length < 2 + 4
  · exact ⟨"Invalid " ++ nm ++ " protocol", by unfold readPayload; rw [if_pos h6]⟩
  · have hj4 : 4 ≤ j := by omega
    have htk : ((t :: c0 :: (insertIntoBuf body).take j).drop 2).take 4
        = u32be body.length := by
      show ((insertIntoBuf body).take j).take 4 = u32be body.length
      rw [List.take_take]
      have : min 4 j = 4 := by omega
      rw [this]
      exact List.take_left' (u32be_length _)
    refine ⟨"Truncated " ++ nm ++ " protocol", ?_⟩
    unfold readPayload
    rw [if_neg h6, htk, beToNat_u32be _ hlen, if_pos (by omega)]

/-- A strict, nonempty prefix of an error frame always fails to decode:
below seven bytes it is rejected as invalid, above that its payload
read is truncated. -/
theorem deserializeError_take (ct : Nat) (msg : List Nat) (j : Nat)
    (hlen : msg.length < 4294967296) (hj : j + 1 < 6 + msg.length) :
    ∃ e, deserializeError (1 :: (ct :: insertIntoBuf msg).take j) = .error e := by
  have hrest : (ct :: insertIntoBuf msg).length = 5 + msg.length := by
    rw [List.length_cons, insertIntoBuf_length]; omega
  have hdat : (1 :: (ct :: insertIntoBuf msg).take j).length
      = 1 + min j (5 + msg.length) := by
    rw [List.length_cons, List.length_take, hrest]; omega
  by_cases h7 : (1 :: (ct :: insertIntoBuf msg).take j).length < 7
  · exact ⟨"Invalid error protocol", by unfold deserializeError; rw [if_pos h7]⟩
  · have hj6 : 6 ≤ j := by omega
    match j, hj6 with
    | j' + 1, _ =>
      rw [List.take_succ_cons] at h7 ⊢
      obtain ⟨e, he⟩ := readPayload_take2_err 1 ct msg j' "Error" hlen (by omega)
      refine ⟨e, ?_⟩
      unfold deserializeError
      rw [if_neg h7, he]

/-- Payload-size conditions under which a frame's 32-bit length prefix
is exact (`bytes.len() as u32` does not truncate). -/
def FrameSizeOk (p : Packet) (mode : SerializationMode)
    (encC : ServerConfig → List Nat) (encV : Value → List Nat) : Prop :=
  match p with
  | .ok | .clientQuit | .edgeL | .edgeR => True
  | .err _ message => message.length < 4294967296
  | .serverHello config => (encC config).length < 4294967296
  | .action payload =>
    match mode with
    | .json => (encV payload).length < 4294967296
    | .binary =>
      match payload with
      | .vStr s => s.length < 4294967296
      | _ => (encV payload).length < 4294967296
  | .dropSend filename => filename.length < 4294967296
  | .dropReq filename => filename.length < 4294967296
  | .data bytes => bytes.length < 4294967296

/-- Claim C8 as amended: for every packet whose payloads fit the 32-bit
length prefix, every strict prefix of its frame fails to decode (empty,
invalid, or truncated — never a packet); and whenever a declared
big-endian 32-bit length exceeds the bytes remaining after it,
`read_payload` returns the truncation error.  Without the size bound
the claim fails: a `Data` packet of 2^32 bytes wraps its length prefix
to 0 and its 5-byte strict prefix decodes as `Data([])`, see
`c8_counterexample`. -/
theorem c8_framing :
    (∀ (mode : SerializationMode) (encC : ServerConfig → List Nat)
      (encV : Value → List Nat) (decC : List Nat → Option ServerConfig)
      (decV : List Nat → Option Value) (p : Packet) (k : Nat),
      FrameSizeOk p mode encC encV →
      k < (serializeWithMode encC encV p mode).length →
      ∃ e, deserializeWithMode decC decV
        ((serializeWithMode encC encV p mode).take k) mode = .error e) ∧
    (∀ (dat : List Nat) (offset : Nat) (nm : String),
      offset + 4 ≤ dat.length →
      dat.length < offset + 4 + beToNat ((dat.drop offset).take 4) →
      readPayload dat offset nm
        = .error ("Truncated " ++ nm ++ " protocol")) := by
  constructor
  · intro mode encC encV decC decV p k hsize hk
    match p with
    | .ok =>
      have hlen1 : (serializeWithMode encC encV .ok mode).length = 1 := rfl
      match k, (by omega : k = 0) with
      | 0, _ => exact ⟨"Empty protocol data", rfl⟩
    | .clientQuit =>
      have hlen1 : (serializeWithMode encC encV .clientQuit mode).length = 1 := rfl
      match k, (by omega : k = 0) with
      | 0, _ => exact ⟨"Empty protocol data", rfl⟩
    | .edgeL =>
      have hlen1 : (serializeWithMode encC encV .edgeL mode).length = 1 := rfl
      match k, (by omega : k = 0) with
      | 0, _ => exact ⟨"Empty protocol data", rfl⟩
    | .edgeR =>
      have hlen1 : (serializeWithMode encC encV .edgeR mode).length = 1 := rfl
      match k, (by omega : k = 0) with
      | 0, _ => exact ⟨"Empty protocol data", rfl⟩
    | .err code msg =>
      have hmsz : msg.length < 4294967296 := hsize
      have hser : serializeWithMode encC encV (.err code msg) mode
          = 1 :: code.toByte :: insertIntoBuf msg := rfl
      rw [hser] at hk ⊢
      rw [List.length_cons, List.length_cons, insertIntoBuf_length] at hk
      match k with
      | 0 => exact ⟨"Empty protocol data", rfl⟩
      | j + 1 =>
        rw [List.take_succ_cons, deserialize_cons1]
        exact deserializeError_take code.toByte msg j hmsz (by omega)
    | .serverHello config =>
      have hbsz : (encC config).length < 4294967296 := hsize
      have hser : serializeWithMode encC encV (.serverHello config) mode
          = 2 :: insertIntoBuf (encC config) := rfl
      rw [hser] at hk ⊢
      rw [List.length_cons, insertIntoBuf_length] at hk
      match k with
      | 0 => exact ⟨"Empty protocol data", rfl⟩
      | j + 1 =>
        obtain ⟨e, he⟩ := readPayload_take_err 2 (encC config) j "ServerHello"
          hbsz (by omega)
        refine ⟨e, ?_⟩
        rw [List.take_succ_cons, deserialize_cons2, he]
    | .action payload =>
      have hb : ∃ body, serializeWithMode encC encV (.action payload) mode
          = 3 :: insertIntoBuf body ∧ body.length < 4294967296 := by
        cases mode with
        | json => exact ⟨encV payload, rfl, hsize⟩
        | binary =>
          cases payload with
          | vStr s => exact ⟨s, rfl, hsize⟩
          | vNull => exact ⟨encV .vNull, rfl, hsize⟩
          | vBool b => exact ⟨encV (.vBool b), rfl, hsize⟩
          | vNum n => exact ⟨encV (.vNum n), rfl, hsize⟩
          | vArr elems => exact ⟨encV (.vArr elems), rfl, hsize⟩
          | vObj fields => exact ⟨encV (.vObj fields), rfl, hsize⟩
      obtain ⟨body, hser, hbsz⟩ := hb
      rw [hser] at hk ⊢
      rw [List.length_cons, insertIntoBuf_length] at hk
      match k with
      | 0 => exact ⟨"Empty protocol data", rfl⟩
      | j + 1 =>
        obtain ⟨e, he⟩ := readPayload_take_err 3 body j "Action" hbsz (by omega)
        refine ⟨e, ?_⟩
        rw [List.take_succ_cons, deserialize_cons3, he]
    | .dropSend filename =>
      have hbsz : filename.length < 4294967296 := hsize
      have hser : serializeWithMode encC encV (.dropSend filename) mode
          = 5 :: insertIntoBuf filename := rfl
      rw [hser] at hk ⊢
      rw [List.length_cons, insertIntoBuf_length] at hk
      match k with
      | 0 => exact ⟨"Empty protocol data", rfl⟩
      | j + 1 =>
        obtain ⟨e, he⟩ := readPayload_take_err 5 filename j "Drop" hbsz (by omega)
        refine ⟨e, ?_⟩
        rw [List.take_succ_cons, deserialize_cons5, he]
    | .dropReq filename =>
      have hbsz : filename.length < 4294967296 := hsize
      have hser : serializeWithMode encC encV (.dropReq filename) mode
          = 6 :: insertIntoBuf filename := rfl
      rw [hser] at hk ⊢
      rw [List.length_cons, insertIntoBuf_length] at hk
      match k with
      | 0 => exact ⟨"Empty protocol data", rfl⟩
      | j + 1 =>
        obtain ⟨e, he⟩ := readPayload_take_err 6 filename j "Drop" hbsz (by omega)
        refine ⟨e, ?_⟩
        rw [List.take_succ_cons, deserialize_cons6, he]
    | .data bytes =>
      have hbsz : bytes.length < 4294967296 := hsize
      have hser : serializeWithMode encC encV (.data bytes) mode
          = 7 :: insertIntoBuf bytes := rfl
      rw [hser] at hk ⊢
      rw [List.length_cons, insertIntoBuf_length] at hk
      match k with
      | 0 => exact ⟨"Empty protocol data", rfl⟩
      | j + 1 =>
        obtain ⟨e, he⟩ := readPayload_take_err 7 bytes j "Data" hbsz (by omega)
        refine ⟨e, ?_⟩
        rw [List.take_succ_cons, deserialize_cons7, he]
  · intro dat offset nm h1 h2
    simp only [readPayload]
    rw [if_neg (by omega), if_pos (by omega)]

/-- Counterexample to claim C8 as stated: for a `Data` packet of 2^32
bytes the `as u32` cast wraps the length prefix to 0, and the strict
5-byte prefix `[7, 0, 0, 0, 0]` of its frame decodes successfully as
`Data([])` — a packet, not an error. -/
theorem c8_counterexample :
    (serializeWithMode encC0 encV0 (.data (List.replicate 4294967296 0)) .json).take 5
      ≠ serializeWithMode encC0 encV0 (.data (List.replicate 4294967296 0)) .json ∧
    serializeWithMode encC0 encV0 (.data (List.replicate 4294967296 0)) .json
      = (serializeWithMode encC0 encV0 (.data (List.replicate 4294967296 0)) .json).take 5
        ++ (serializeWithMode encC0 encV0 (.data (List.replicate 4294967296 0)) .json).drop 5 ∧
    deserializeWithMode decC0 decV0
      ((serializeWithMode encC0 encV0 (.data (List.replicate 4294967296 0)) .json).take 5)
      .json = .ok (.data []) := by
  have hser : serializeWithMode encC0 encV0 (.data (List.replicate 4294967296 0)) .json
      = 7 :: u32be 4294967296 ++ List.replicate 4294967296 0 := by
    show 7 :: insertIntoBuf (List.replicate 4294967296 0)
      = 7 :: u32be 4294967296 ++ List.replicate 4294967296 0
    unfold insertIntoBuf
    rw [List.length_replicate]
    rfl
  have hu : u32be 4294967296 = [0, 0, 0, 0] := by norm_num [u32be]
  have htake : (serializeWithMode encC0 encV0
      (.data (List.replicate 4294967296 0)) .json).take 5 = [7, 0, 0, 0, 0] := by
    rw [hser, hu]
    exact List.take_left' (by rfl)
  have hflen : (serializeWithMode encC0 encV0
      (.data (List.replicate 4294967296 0)) .json).length = 4294967301 := by
    rw [hser, List.length_append, List.length_cons, List.length_replicate,
      u32be_length]
  refine ⟨?_, (List.take_append_drop 5 _).symm, by rw [htake]; rfl⟩
  intro hcontra
  rw [htake] at hcontra
  have hlen := congrArg List.length hcontra
  rw [hflen] at hlen
  exact absurd hlen (by decide)

/-- Witness for C8 (amended) at a concrete truncated `Data` frame. -/
theorem c8_witness :
    ∃ e, deserializeWithMode decC0 decV0
      ((serializeWithMode encC0 encV0 (.data [1, 2, 3]) .json).take 4) .json
      = .error e :=
  c8_framing.1 .json encC0 encV0 decC0 decV0 (.data [1, 2, 3]) 4
    (show ([1, 2, 3] : List Nat).length < 4294967296 by norm_num) (by decide)
